import Mathlib

/-!
Verification of the kv-test-perf benchmark harness (src/main.go).

Shallow embedding: pure Lean models of the Go program's data model and
operations.  Go errors are modelled by an inductive `GoErr` whose `wrapf`
constructor models `fmt.Errorf` with `%w` wrapping; `errorsIs` models
`errors.Is` against the sentinel errors the program actually tests for
(`context.DeadlineExceeded`, `sql.ErrNoRows`; sentinel comparison in Go is
identity, so two independently created non-sentinel errors are never equal).
Backend stores are modelled as association lists; the SQL `insert ... on
conflict (k) do update` and the redis `SET` are both upserts on that list,
and the adapters' `Get` methods follow the client-library contracts:
`database/sql` Scan yields `sql.ErrNoRows` (value left at its zero value "")
for an absent row, and go-redis `Get(...).Result()` yields the `redis.Nil`
sentinel error for an absent key.
-/

/-- Go error values, as the program can observe them.  `wrapf msg inner`
models `fmt.Errorf("...%w...", inner)`; `errorString msg` models an
unwrapped error such as `fmt.Errorf("unexpected value: %s", v)` or
`errors.New`. -/
inductive GoErr where
  | deadlineExceeded
  | canceled
  | sqlErrNoRows
  | redisNil
  | errorString (msg : String)
  | wrapf (msg : String) (inner : GoErr)
deriving DecidableEq, Repr

/-- Models Go `errors.Is(e, target)` for the sentinel targets used by the
program: equality is identity on sentinels, and `wrapf` chains unwrap. -/
def errorsIs : GoErr → GoErr → Bool
  | GoErr.wrapf _ inner, target => errorsIs inner target
  | GoErr.deadlineExceeded, GoErr.deadlineExceeded => true
  | GoErr.canceled, GoErr.canceled => true
  | GoErr.sqlErrNoRows, GoErr.sqlErrNoRows => true
  | GoErr.redisNil, GoErr.redisNil => true
  | _, _ => false

/-- The string `fmt.Println(err)` emits for an error value. -/
def errString : GoErr → String
  | GoErr.deadlineExceeded => "context deadline exceeded"
  | GoErr.canceled => "context canceled"
  | GoErr.sqlErrNoRows => "sql: no rows in result set"
  | GoErr.redisNil => "redis: nil"
  | GoErr.errorString msg => msg
  | GoErr.wrapf msg _ => msg

/-- The two counters of `type Stats struct \x7b ok, err uint64 \x7d`.
Counts are modelled as naturals (the program's counts stay far below
2^64 in a 10-second phase, and no claim concerns counter wraparound). -/
structure Stats where
  ok : Nat
  err : Nat
deriving DecidableEq, Repr

/-- `func (s *Stats) OK()`: atomically increments the success counter. -/
def Stats.OK (s : Stats) : Stats :=
  { s with ok := s.ok + 1 }

/-- `func (s *Stats) Err(err error)`: if `errors.Is(err, context.DeadlineExceeded)`
the failure is discarded (no log line, no increment); otherwise the error is
printed and the error counter is incremented.  The second component is the
list of log lines emitted by the call. -/
def Stats.Err (s : Stats) (e : GoErr) : Stats × List String :=
  if errorsIs e GoErr.deadlineExceeded then (s, [])
  else ({ s with err := s.err + 1 }, [errString e])

/-! ## Backend stores

Both adapters' storage is modelled as an association list from keys to
values (the SQL table `kv(k primary key, v)`, or the redis keyspace). -/

abbrev Table := List (String × String)

/-- Current value bound to `key`, if any. -/
def tableGet : Table → String → Option String
  | [], _ => none
  | (k', v') :: rest, k => if k' = k then some v' else tableGet rest k

/-- Insert-or-update: if `key` is present its value is overwritten in place,
otherwise a new row is appended.  This is the storage effect of both
`insert into kv(k, v) values($1, $2) on conflict (k) do update set v =
excluded.v` and redis `SET`. -/
def tableUpsert : Table → String → String → Table
  | [], k, v => [(k, v)]
  | (k', v') :: rest, k, v =>
      if k' = k then (k, v) :: rest else (k', v') :: tableUpsert rest k v

/-- `func (s *sqlKV) Set`: upsert; on a healthy backend the statement
succeeds and no error is returned. -/
def sqlKV.Set (db : Table) (key value : String) : Table × Option GoErr :=
  (tableUpsert db key value, none)

/-- `func (s *sqlKV) Get`: `QueryRowContext(...).Scan(&value)` yields
`sql.ErrNoRows` for an absent row, leaving `value` at its zero value `""`;
the method then maps `sql.ErrNoRows` to a nil error and returns. -/
def sqlKV.Get (db : Table) (key : String) : String × Option GoErr :=
  let scanned : String × Option GoErr :=
    match tableGet db key with
    | some v => (v, none)
    | none => ("", some GoErr.sqlErrNoRows)
  match scanned with
  | (v, some e) => if errorsIs e GoErr.sqlErrNoRows then (v, none) else (v, some e)
  | (v, none) => (v, none)

/-- `func (r *redisKV) Set`: redis `SET key value` with no expiration;
on a healthy backend it succeeds. -/
def redisKV.Set (db : Table) (key value : String) : Table × Option GoErr :=
  (tableUpsert db key value, none)

/-- `func (r *redisKV) Get`: `r.client.Get(ctx, key).Result()` returns the
stored value, or the `redis.Nil` sentinel error when the key is absent
(go-redis contract); the method returns that result unchanged. -/
def redisKV.Get (db : Table) (key : String) : String × Option GoErr :=
  match tableGet db key with
  | some v => (v, none)
  | none => ("", some GoErr.redisNil)

/-- Configuration facet of `func NewSQLKV(uri string)`: it opens the pool
and calls `db.SetMaxIdleConns(30)`. -/
structure SqlKVConfig where
  uri : String
  maxIdleConns : Nat
deriving Repr

/-- `NewSQLKV` sets the idle-connection pool size to 30. -/
def NewSQLKV (uri : String) : SqlKVConfig :=
  { uri := uri, maxIdleConns := 30 }

/-! ## Workload runner

Workers run over an injected *schedule*: one entry per loop iteration,
recording what the iteration's initial `select` on `ctx.Done()` observed and
what the backend call returned in that iteration.  This makes the
timing-dependent environment explicit while keeping the loop's control flow
exactly as in the source. -/

/-- One `runSet` loop iteration's environment: what the initial
cancellation check observed, and the result `kv.Set` would return. -/
structure SetIter where
  done : Bool
  setResult : Option GoErr
deriving Repr

/-- One `runGet` loop iteration's environment: what the initial
cancellation check observed, and the `(value, error)` pair `kv.Get`
would return. -/
structure GetIter where
  done : Bool
  getResult : String × Option GoErr
deriving Repr

/-- Body of one `runSet` iteration after the cancellation check fell
through: call `kv.Set`; on error record the failure, otherwise record
success.  Returns the updated stats and the log lines emitted. -/
def setAttempt (s : Stats) (res : Option GoErr) : Stats × List String :=
  match res with
  | some e => Stats.Err s e
  | none => (Stats.OK s, [])

/-- Body of one `runGet` iteration after the cancellation check fell
through: call `kv.Get`; on error record the failure; on success compare the
returned value byte-for-byte with the expected value and record a
synthesized `fmt.Errorf("unexpected value: %s", v)` failure on mismatch;
otherwise record success. -/
def getAttempt (s : Stats) (expected : String) (res : String × Option GoErr) :
    Stats × List String :=
  match res.2 with
  | some e => Stats.Err s e
  | none =>
      if res.1 ≠ expected then
        Stats.Err s (GoErr.errorString ("unexpected value: " ++ res.1))
      else (Stats.OK s, [])

/-- Result of running a worker loop over a finite schedule: `exited = some s`
when the loop returned (via the cancellation check) with final stats `s`,
`none` when the schedule ran out with the loop still going; `calls` counts
backend calls issued; `logs` collects emitted log lines. -/
structure LoopResult where
  exited : Option Stats
  calls : Nat
  logs : List String
deriving Repr

/-- `func runSet(ctx, kv, i, s)`: loop forever; each iteration first checks
`ctx.Done()` and returns if done, else performs one `Set` attempt and
continues.  The `return` in the `select` is the loop's only exit. -/
def runSet (sched : List SetIter) (s : Stats) : LoopResult :=
  match sched with
  | [] => ⟨none, 0, []⟩
  | it :: rest =>
      if it.done then ⟨some s, 0, []⟩
      else
        let step := setAttempt s it.setResult
        let r := runSet rest step.1
        ⟨r.exited, r.calls + 1, step.2 ++ r.logs⟩

/-- `func runGet(ctx, kv, i, s)`: computes `value = "value_<i>"` (the key
`"key_<i>"` only parameterizes the injected `Get` results), then loops with
the same structure as `runSet`, verifying each successfully read value. -/
def runGet (i : Nat) (sched : List GetIter) (s : Stats) : LoopResult :=
  match sched with
  | [] => ⟨none, 0, []⟩
  | it :: rest =>
      if it.done then ⟨some s, 0, []⟩
      else
        let step := getAttempt s ("value_" ++ toString i) it.getResult
        let r := runGet i rest step.1
        ⟨r.exited, r.calls + 1, step.2 ++ r.logs⟩

/-! ## Stats aggregation across workers -/

/-- One classification event recorded against a phase's shared `Stats`:
a `Stats.OK` call or a `Stats.Err e` call.  A phase's history is an
arbitrary interleaving, i.e. an arbitrary list of these. -/
inductive RecOp where
  | success
  | failure (e : GoErr)
deriving DecidableEq, Repr

/-- Whether the event is a `Stats.OK` call. -/
def RecOp.isSuccess : RecOp → Bool
  | RecOp.success => true
  | RecOp.failure _ => false

/-- Apply one recorded event to the shared counters.  Increments are atomic
in the source (`atomic.AddUint64`), so an interleaving of N increments is
exactly a sequential application of N events in some order. -/
def recordOne (s : Stats) : RecOp → Stats
  | RecOp.success => Stats.OK s
  | RecOp.failure e => (Stats.Err s e).1

/-- Final counters after a phase's interleaved events. -/
def applyOps (ops : List RecOp) (s : Stats) : Stats :=
  ops.foldl recordOne s

/-! ## Phase orchestrator (`func main`) -/

/-- `const n = 100`: number of workers per phase. -/
def n : Nat := 100

/-- `const d = 10 * time.Second`, in nanoseconds. -/
def d : Nat := 10 * 1000000000

/-- A spawned goroutine, identified by the workload and its worker index. -/
inductive GoAction where
  | spawnSet (i : Nat)
  | spawnGet (i : Nat)
deriving DecidableEq, Repr

/-- The `for i := 0; i < n; i++ \x7b go ... \x7d` spawn loop of one phase. -/
def spawnPhase (mk : Nat → GoAction) : List GoAction :=
  (List.range n).map mk

/-- What `main` observes of one phase: the interleaved sequence of counter
events the workers recorded before the summary read, and the elapsed
wall-clock nanoseconds `t := time.Since(start)` measured after
`<-ctx.Done()` unblocked. -/
structure PhaseObs where
  events : List RecOp
  elapsedNanos : Nat
deriving Repr

/-- One phase's printed summary: `total`, `ops`, `ok`, `err`. -/
structure Report where
  total : Nat
  ops : Nat
  ok : Nat
  err : Nat
deriving DecidableEq, Repr

/-- The summary block of one phase.  `ops` is
`int64(s.ok+s.err) / int64(t/time.Second)`: the elapsed time is truncated to
whole seconds and used as an integer divisor.  In Go, integer division by
zero is a runtime panic, modelled by `none`. -/
def phaseReport (p : PhaseObs) : Option Report :=
  let s := applyOps p.events ⟨0, 0⟩
  let secs := p.elapsedNanos / 1000000000
  if secs = 0 then none
  else some ⟨s.ok + s.err, (s.ok + s.err) / secs, s.ok, s.err⟩

/-- `func main` after the `KV` value is constructed: run `kv.Setup(ctx)` and
panic on error, else run the set phase then the get phase, spawning `n`
workers each and printing each phase's summary after its deadline fires.
Returns the spawned goroutines and either the two reports or the panic
that terminated the run. -/
def mainModel (setupResult : Option GoErr) (p1 p2 : PhaseObs) :
    List GoAction × Except GoErr (Report × Report) :=
  match setupResult with
  | some e => ([], Except.error e)
  | none =>
      match phaseReport p1 with
      | none =>
          (spawnPhase GoAction.spawnSet,
           Except.error (GoErr.errorString "runtime error: integer divide by zero"))
      | some r1 =>
          match phaseReport p2 with
          | none =>
              (spawnPhase GoAction.spawnSet ++ spawnPhase GoAction.spawnGet,
               Except.error (GoErr.errorString "runtime error: integer divide by zero"))
          | some r2 =>
              (spawnPhase GoAction.spawnSet ++ spawnPhase GoAction.spawnGet,
               Except.ok (r1, r2))

/-- Whether recording this event moves a counter: `Stats.OK` calls always
do; a `Stats.Err` call does exactly when its error does not match the
deadline-exceeded sentinel. -/
def RecOp.counted : RecOp → Bool
  | RecOp.success => true
  | RecOp.failure e => ! errorsIs e GoErr.deadlineExceeded

/-! ## Helper lemmas -/

/-- A freshly formatted (unwrapped) error never matches the
`context.DeadlineExceeded` sentinel. -/
theorem errorsIs_errorString (m : String) :
    errorsIs (GoErr.errorString m) GoErr.deadlineExceeded = false := rfl

/-- Looking up a key right after upserting it yields the upserted value. -/
theorem tableGet_tableUpsert (db : Table) (k v : String) :
    tableGet (tableUpsert db k v) k = some v := by
  induction db with
  | nil => simp [tableUpsert, tableGet]
  | cons hd tl ih =>
      obtain ⟨k', v'⟩ := hd
      by_cases hk : k' = k
      · simp [tableUpsert, tableGet, hk]
      · simp [tableUpsert, tableGet, hk, ih]

/-! ## Claims -/

/-- C1: every error passed to `Stats.Err` that matches the
deadline-exceeded sentinel is silently discarded (counters untouched,
nothing logged); every other error is logged exactly once and increments the
error counter exactly once, leaving the success counter untouched. -/
theorem C1_err_classification (s : Stats) (e : GoErr) :
    (errorsIs e GoErr.deadlineExceeded = true → Stats.Err s e = (s, [])) ∧
    (errorsIs e GoErr.deadlineExceeded = false →
      Stats.Err s e = (⟨s.ok, s.err + 1⟩, [errString e])) := by
  constructor <;> intro h <;> simp [Stats.Err, h]

/-- C1 witness: a wrapped deadline-exceeded error is discarded; a
"connection refused" error is logged and counted. -/
theorem C1_err_classification_witness :
    (errorsIs (GoErr.wrapf "write: context deadline exceeded" GoErr.deadlineExceeded)
        GoErr.deadlineExceeded = true ∧
      Stats.Err ⟨3, 4⟩ (GoErr.wrapf "write: context deadline exceeded" GoErr.deadlineExceeded)
        = (⟨3, 4⟩, [])) ∧
    (errorsIs (GoErr.errorString "connection refused") GoErr.deadlineExceeded = false ∧
      Stats.Err ⟨3, 4⟩ (GoErr.errorString "connection refused")
        = (⟨3, 5⟩, ["connection refused"])) :=
  ⟨⟨rfl, (C1_err_classification ⟨3, 4⟩ _).1 rfl⟩,
   ⟨rfl, (C1_err_classification ⟨3, 4⟩ _).2 rfl⟩⟩

/-- C2 counterexample: the in-memory cache adapter does NOT return a nil
error for a never-set key — `redisKV.Get` on an empty keyspace returns the
`redis.Nil` sentinel error, refuting the claim for that variant. -/
theorem C2_counterexample : (redisKV.Get [] "key_0").2 ≠ none := by decide

/-- C2 amended: for a never-set key, the relational adapter returns an empty
value and no error (it maps `sql.ErrNoRows` to nil), while the in-memory
cache adapter returns an empty value together with the `redis.Nil` error. -/
theorem C2_absence_semantics (db : Table) (k : String)
    (h : tableGet db k = none) :
    sqlKV.Get db k = ("", none) ∧
    redisKV.Get db k = ("", some GoErr.redisNil) := by
  constructor
  · simp [sqlKV.Get, h, errorsIs]
  · simp [redisKV.Get, h]

/-- C2 witness: on a store holding only `key_1`, looking up `key_0` hits
both adapters' absence paths. -/
theorem C2_absence_semantics_witness :
    tableGet [("key_1", "value_1")] "key_0" = none ∧
    sqlKV.Get [("key_1", "value_1")] "key_0" = ("", none) ∧
    redisKV.Get [("key_1", "value_1")] "key_0" = ("", some GoErr.redisNil) :=
  ⟨by decide,
   (C2_absence_semantics [("key_1", "value_1")] "key_0" (by decide)).1,
   (C2_absence_semantics [("key_1", "value_1")] "key_0" (by decide)).2⟩

/-- C3 counterexample: a completed `runSet` attempt whose `Set` call failed
with an error wrapping the deadline-exceeded sentinel increments NEITHER
counter, refuting "exactly one ... never neither". -/
theorem C3_counterexample :
    ¬ ((setAttempt ⟨0, 0⟩
          (some (GoErr.wrapf "write: context deadline exceeded"
            GoErr.deadlineExceeded))).1.ok +
       (setAttempt ⟨0, 0⟩
          (some (GoErr.wrapf "write: context deadline exceeded"
            GoErr.deadlineExceeded))).1.err = 1) := by decide

/-- C3 amended: every completed attempt increments at most one counter —
the success counter on success, the error counter on a failure whose error
does not match the deadline-exceeded sentinel (including the synthesized
read-verify mismatch), and neither counter on a deadline-exceeded
failure. -/
theorem C3_at_most_one_increment (s : Stats) :
    ((setAttempt s none).1 = ⟨s.ok + 1, s.err⟩) ∧
    (∀ e, errorsIs e GoErr.deadlineExceeded = true →
      (setAttempt s (some e)).1 = s) ∧
    (∀ e, errorsIs e GoErr.deadlineExceeded = false →
      (setAttempt s (some e)).1 = ⟨s.ok, s.err + 1⟩) ∧
    (∀ exp v, (getAttempt s exp (v, none)).1 =
      if v = exp then ⟨s.ok + 1, s.err⟩ else ⟨s.ok, s.err + 1⟩) ∧
    (∀ exp v e, errorsIs e GoErr.deadlineExceeded = true →
      (getAttempt s exp (v, some e)).1 = s) ∧
    (∀ exp v e, errorsIs e GoErr.deadlineExceeded = false →
      (getAttempt s exp (v, some e)).1 = ⟨s.ok, s.err + 1⟩) := by
  refine ⟨rfl, ?_, ?_, ?_, ?_, ?_⟩
  · intro e h; simp [setAttempt, Stats.Err, h]
  · intro e h; simp [setAttempt, Stats.Err, h]
  · intro exp v
    by_cases hv : v = exp
    · simp [getAttempt, hv, Stats.OK]
    · simp [getAttempt, hv, Stats.Err, errorsIs_errorString]
  · intro exp v e h; simp [getAttempt, Stats.Err, h]
  · intro exp v e h; simp [getAttempt, Stats.Err, h]

/-- C3 witness: a success increments `ok`; a deadline-exceeded failure
increments neither; an operational failure increments `err`. -/
theorem C3_at_most_one_increment_witness :
    ((setAttempt ⟨0, 0⟩ none).1 = ⟨1, 0⟩) ∧
    (errorsIs GoErr.deadlineExceeded GoErr.deadlineExceeded = true ∧
      (setAttempt ⟨0, 0⟩ (some GoErr.deadlineExceeded)).1 = ⟨0, 0⟩) ∧
    (errorsIs (GoErr.errorString "pq: connection refused")
        GoErr.deadlineExceeded = false ∧
      (setAttempt ⟨0, 0⟩
        (some (GoErr.errorString "pq: connection refused"))).1 = ⟨0, 1⟩) :=
  ⟨(C3_at_most_one_increment ⟨0, 0⟩).1,
   ⟨rfl, (C3_at_most_one_increment ⟨0, 0⟩).2.1 GoErr.deadlineExceeded rfl⟩,
   ⟨rfl, (C3_at_most_one_increment ⟨0, 0⟩).2.2.1
      (GoErr.errorString "pq: connection refused") rfl⟩⟩

/-- C4: in the read-verify workload, a successful `Get` whose value differs
from the expected `"value_<i>"` records the synthesized mismatch error: the
error counter is incremented and the message is logged — never silently
discarded. -/
theorem C4_mismatch_counted (s : Stats) (i : Nat) (v : String)
    (h : v ≠ "value_" ++ toString i) :
    getAttempt s ("value_" ++ toString i) (v, none) =
      (⟨s.ok, s.err + 1⟩, ["unexpected value: " ++ v]) := by
  simp [getAttempt, h, Stats.Err, errorsIs_errorString, errString]

/-- C4 witness: worker 7 reading `"value_8"` where `"value_7"` was expected
records a counted, logged mismatch failure. -/
theorem C4_mismatch_counted_witness :
    ("value_8" ≠ "value_" ++ toString 7) ∧
    getAttempt ⟨0, 0⟩ ("value_" ++ toString 7) ("value_8", none) =
      (⟨0, 1⟩, ["unexpected value: " ++ "value_8"]) :=
  ⟨by decide, C4_mismatch_counted ⟨0, 0⟩ 7 "value_8" (by decide)⟩

/-- C5: round-trip and upsert semantics on both backends: `get` after a
successful `set(k, v)` returns exactly `v` with no error; setting `(k, v)`
twice still yields `v`; setting `v1` then `v2` yields `v2` (last write
wins). -/
theorem C5_roundtrip_upsert (db : Table) (k v v1 v2 : String) :
    sqlKV.Get (sqlKV.Set db k v).1 k = (v, none) ∧
    sqlKV.Get (sqlKV.Set (sqlKV.Set db k v).1 k v).1 k = (v, none) ∧
    sqlKV.Get (sqlKV.Set (sqlKV.Set db k v1).1 k v2).1 k = (v2, none) ∧
    redisKV.Get (redisKV.Set db k v).1 k = (v, none) ∧
    redisKV.Get (redisKV.Set (redisKV.Set db k v).1 k v).1 k = (v, none) ∧
    redisKV.Get (redisKV.Set (redisKV.Set db k v1).1 k v2).1 k = (v2, none) := by
  refine ⟨?_, ?_, ?_, ?_, ?_, ?_⟩ <;>
    simp [sqlKV.Get, sqlKV.Set, redisKV.Get, redisKV.Set, tableGet_tableUpsert]

/-- Unfolding one step of `applyOps`. -/
theorem applyOps_cons (op : RecOp) (rest : List RecOp) (s : Stats) :
    applyOps (op :: rest) s = applyOps rest (recordOne s op) := rfl

/-- Counter bookkeeping of an interleaved event list, from an arbitrary
starting state: when every event counts, `ok` grows by the number of
success events, `err` by the number of failure events, and the total by the
list's length. -/
theorem applyOps_counts (ops : List RecOp) (s : Stats)
    (h : ops.all RecOp.counted = true) :
    (applyOps ops s).ok = s.ok + ops.countP RecOp.isSuccess ∧
    (applyOps ops s).err = s.err + ops.countP (fun op => ! RecOp.isSuccess op) ∧
    (applyOps ops s).ok + (applyOps ops s).err = s.ok + s.err + ops.length := by
  induction ops generalizing s with
  | nil => simp [applyOps]
  | cons op rest ih =>
      rw [List.all_cons, Bool.and_eq_true] at h
      obtain ⟨hop, hrest⟩ := h
      cases op with
      | success =>
          obtain ⟨h1, h2, h3⟩ := ih (Stats.OK s) hrest
          rw [applyOps_cons]
          refine ⟨?_, ?_, ?_⟩ <;>
            simp [recordOne, Stats.OK, List.countP_cons, RecOp.isSuccess] at h1 h2 h3 ⊢ <;>
            omega
      | failure e =>
          have he : errorsIs e GoErr.deadlineExceeded = false := by
            simpa [RecOp.counted] using hop
          have hrec : recordOne s (RecOp.failure e) = ⟨s.ok, s.err + 1⟩ := by
            simp [recordOne, Stats.Err, he]
          obtain ⟨h1, h2, h3⟩ := ih ⟨s.ok, s.err + 1⟩ hrest
          rw [applyOps_cons, hrec]
          refine ⟨?_, ?_, ?_⟩ <;>
            simp [List.countP_cons, RecOp.isSuccess] at h1 h2 h3 ⊢ <;>
            omega

/-- C6: for any interleaving of counter events within one phase, all of
whose failures count (are not deadline-exceeded), the final counters are
exactly the number of success calls and the number of failure calls, and
they sum to the total number of calls — no increment is lost. -/
theorem C6_no_lost_updates (ops : List RecOp)
    (h : ops.all RecOp.counted = true) :
    (applyOps ops ⟨0, 0⟩).ok = ops.countP RecOp.isSuccess ∧
    (applyOps ops ⟨0, 0⟩).err = ops.countP (fun op => ! RecOp.isSuccess op) ∧
    (applyOps ops ⟨0, 0⟩).ok + (applyOps ops ⟨0, 0⟩).err = ops.length := by
  obtain ⟨h1, h2, h3⟩ := applyOps_counts ops ⟨0, 0⟩ h
  exact ⟨by simpa using h1, by simpa using h2, by simpa using h3⟩

/-- C6 witness: three interleaved events — success, counted failure,
success — yield counters (2, 1) summing to 3. -/
theorem C6_no_lost_updates_witness :
    (([RecOp.success, RecOp.failure (GoErr.errorString "boom"), RecOp.success] :
        List RecOp).all RecOp.counted = true) ∧
    (applyOps [RecOp.success, RecOp.failure (GoErr.errorString "boom"),
        RecOp.success] ⟨0, 0⟩).ok +
      (applyOps [RecOp.success, RecOp.failure (GoErr.errorString "boom"),
        RecOp.success] ⟨0, 0⟩).err = 3 :=
  ⟨by decide,
   (C6_no_lost_updates
      [RecOp.success, RecOp.failure (GoErr.errorString "boom"), RecOp.success]
      (by decide)).2.2⟩

/-- Backend calls issued by `runSet` happen exactly in the iterations whose
initial cancellation check saw the context not yet done. -/
theorem runSet_calls (sched : List SetIter) (s : Stats) :
    (runSet sched s).calls = (sched.takeWhile (fun it => ! it.done)).length := by
  induction sched generalizing s with
  | nil => simp [runSet]
  | cons it rest ih =>
      by_cases hd : it.done <;>
        simp [runSet, List.takeWhile_cons, hd, ih]

/-- `runSet` returns exactly when some iteration's cancellation check
observes the context done. -/
theorem runSet_exited (sched : List SetIter) (s : Stats) :
    (runSet sched s).exited.isSome = sched.any (fun it => it.done) := by
  induction sched generalizing s with
  | nil => simp [runSet]
  | cons it rest ih =>
      by_cases hd : it.done <;> simp [runSet, hd, ih]

/-- Backend calls issued by `runGet` happen exactly in the iterations whose
initial cancellation check saw the context not yet done. -/
theorem runGet_calls (i : Nat) (sched : List GetIter) (s : Stats) :
    (runGet i sched s).calls = (sched.takeWhile (fun it => ! it.done)).length := by
  induction sched generalizing s with
  | nil => simp [runGet]
  | cons it rest ih =>
      by_cases hd : it.done <;>
        simp [runGet, List.takeWhile_cons, hd, ih]

/-- `runGet` returns exactly when some iteration's cancellation check
observes the context done. -/
theorem runGet_exited (i : Nat) (sched : List GetIter) (s : Stats) :
    (runGet i sched s).exited.isSome = sched.any (fun it => it.done) := by
  induction sched generalizing s with
  | nil => simp [runGet]
  | cons it rest ih =>
      by_cases hd : it.done <;> simp [runGet, hd, ih]

/-- C7: in both worker loops, backend calls are issued exactly in the
iterations whose initial cancellation check saw the context not done (so an
iteration whose check saw it done issues no call); the check is the loop's
only exit (the loop returns iff some iteration's check observes done); and
an iteration whose check observes done returns immediately — current stats,
zero further calls, no further logs. -/
theorem C7_cancellation_check (sd : List SetIter) (gd : List GetIter)
    (s t : Stats) (i : Nat) :
    ((runSet sd s).calls = (sd.takeWhile (fun it => ! it.done)).length) ∧
    ((runSet sd s).exited.isSome = sd.any (fun it => it.done)) ∧
    (∀ it rest, it.done = true → runSet (it :: rest) s = ⟨some s, 0, []⟩) ∧
    ((runGet i gd t).calls = (gd.takeWhile (fun it => ! it.done)).length) ∧
    ((runGet i gd t).exited.isSome = gd.any (fun it => it.done)) ∧
    (∀ it rest, it.done = true → runGet i (it :: rest) t = ⟨some t, 0, []⟩) := by
  refine ⟨runSet_calls sd s, runSet_exited sd s, ?_,
          runGet_calls i gd t, runGet_exited i gd t, ?_⟩
  · intro it rest hd; simp [runSet, hd]
  · intro it rest hd; simp [runGet, hd]

/-- C7 witness: a schedule whose first check sees done makes zero calls and
exits at once with the stats untouched, for both loops. -/
theorem C7_cancellation_check_witness :
    runSet [⟨true, none⟩] ⟨5, 6⟩ = ⟨some ⟨5, 6⟩, 0, []⟩ ∧
    runGet 0 [⟨true, ("", none)⟩] ⟨7, 8⟩ = ⟨some ⟨7, 8⟩, 0, []⟩ :=
  ⟨(C7_cancellation_check [] [] ⟨5, 6⟩ ⟨0, 0⟩ 0).2.2.1 ⟨true, none⟩ [] rfl,
   (C7_cancellation_check [] [] ⟨0, 0⟩ ⟨7, 8⟩ 0).2.2.2.2.2 ⟨true, ("", none)⟩ [] rfl⟩

/-- C8: a setup failure aborts the entire run before any phase starts and
before any goroutine is spawned; once setup has succeeded, the run completes
and prints both phase reports no matter what failures the workers recorded
during the phases. -/
theorem C8_setup_fatal_phase_nonfatal (e : GoErr) (p1 p2 : PhaseObs)
    (h1 : 1000000000 ≤ p1.elapsedNanos) (h2 : 1000000000 ≤ p2.elapsedNanos) :
    mainModel (some e) p1 p2 = ([], Except.error e) ∧
    ∃ r1 r2, mainModel none p1 p2 =
      (spawnPhase GoAction.spawnSet ++ spawnPhase GoAction.spawnGet,
       Except.ok (r1, r2)) := by
  have hz1 : p1.elapsedNanos / 1000000000 ≠ 0 :=
    Nat.one_le_iff_ne_zero.mp ((Nat.one_le_div_iff (by norm_num)).mpr h1)
  have hz2 : p2.elapsedNanos / 1000000000 ≠ 0 :=
    Nat.one_le_iff_ne_zero.mp ((Nat.one_le_div_iff (by norm_num)).mpr h2)
  have hp1 : ∃ r1, phaseReport p1 = some r1 := by simp [phaseReport, hz1]
  have hp2 : ∃ r2, phaseReport p2 = some r2 := by simp [phaseReport, hz2]
  obtain ⟨r1, hr1⟩ := hp1
  obtain ⟨r2, hr2⟩ := hp2
  exact ⟨rfl, r1, r2, by simp [mainModel, hr1, hr2]⟩

/-- C8 witness: with events recording an operational failure, a failing
setup aborts with no goroutines spawned, while a successful setup yields
both reports despite the in-phase failure. -/
theorem C8_setup_fatal_phase_nonfatal_witness :
    (1000000000 ≤ (10000000000 : Nat)) ∧
    mainModel (some (GoErr.errorString "pq: connection refused"))
        ⟨[RecOp.failure (GoErr.errorString "boom")], 10000000000⟩
        ⟨[], 10000000000⟩ =
      ([], Except.error (GoErr.errorString "pq: connection refused")) ∧
    (∃ r1 r2, mainModel none
        ⟨[RecOp.failure (GoErr.errorString "boom")], 10000000000⟩
        ⟨[], 10000000000⟩ =
      (spawnPhase GoAction.spawnSet ++ spawnPhase GoAction.spawnGet,
       Except.ok (r1, r2))) := by
  have h := C8_setup_fatal_phase_nonfatal (GoErr.errorString "pq: connection refused")
    ⟨[RecOp.failure (GoErr.errorString "boom")], 10000000000⟩
    ⟨[], 10000000000⟩ (by norm_num) (by norm_num)
  exact ⟨by norm_num, h.1, h.2⟩

/-- C9: the harness's fixed constants are worker count `n = 100`, phase
duration `d = 10` seconds, and idle-connection pool size 30; each phase's
spawn loop launches exactly `n` goroutines carrying the worker indices
`0, ..., n-1`, pairwise distinct. -/
theorem C9_fixed_constants :
    n = 100 ∧ d = 10 * 1000000000 ∧
    (∀ uri, (NewSQLKV uri).maxIdleConns = 30) ∧
    (∀ mk, spawnPhase mk = (List.range n).map mk) ∧
    (spawnPhase GoAction.spawnSet).length = n ∧
    (spawnPhase GoAction.spawnGet).length = n ∧
    (spawnPhase GoAction.spawnSet).Nodup ∧
    (spawnPhase GoAction.spawnGet).Nodup := by
  refine ⟨rfl, rfl, fun uri => rfl, fun mk => rfl, ?_, ?_, ?_, ?_⟩
  · simp [spawnPhase]
  · simp [spawnPhase]
  · exact List.Nodup.map (fun a b hab => by injection hab) (List.nodup_range n)
  · exact List.Nodup.map (fun a b hab => by injection hab) (List.nodup_range n)

/-- C10: the printed `ops` value is the integer quotient of total attempts
by the elapsed time truncated to whole seconds; the divisor is nonzero
whenever at least one full second has elapsed — which the orchestrator
guarantees by blocking on the 10-second deadline before computing it —
while under one second of elapsed time the computation divides by zero
(a runtime panic, modelled as `none`). -/
theorem C10_ops_division (p : PhaseObs) :
    (1000000000 ≤ p.elapsedNanos →
      p.elapsedNanos / 1000000000 ≠ 0 ∧
      ∃ r, phaseReport p = some r ∧ r.total = r.ok + r.err ∧
        r.ops = (r.ok + r.err) / (p.elapsedNanos / 1000000000)) ∧
    (p.elapsedNanos < 1000000000 → phaseReport p = none) := by
  constructor
  · intro h
    have hz : p.elapsedNanos / 1000000000 ≠ 0 :=
      Nat.one_le_iff_ne_zero.mp ((Nat.one_le_div_iff (by norm_num)).mpr h)
    refine ⟨hz,
      ⟨(applyOps p.events ⟨0, 0⟩).ok + (applyOps p.events ⟨0, 0⟩).err,
        ((applyOps p.events ⟨0, 0⟩).ok + (applyOps p.events ⟨0, 0⟩).err) /
          (p.elapsedNanos / 1000000000),
        (applyOps p.events ⟨0, 0⟩).ok, (applyOps p.events ⟨0, 0⟩).err⟩,
      ?_, rfl, rfl⟩
    simp [phaseReport, hz]
  · intro h
    have hz : p.elapsedNanos / 1000000000 = 0 := Nat.div_eq_of_lt h
    simp [phaseReport, hz]

/-- C10 witness: a 10-second phase with one success yields a report with a
well-defined quotient, while a 0.999999999-second phase would divide by
zero. -/
theorem C10_ops_division_witness :
    ((1000000000 : Nat) ≤ 10000000000 ∧
      (10000000000 : Nat) / 1000000000 ≠ 0 ∧
      ∃ r, phaseReport ⟨[RecOp.success], 10000000000⟩ = some r ∧
        r.total = r.ok + r.err ∧
        r.ops = (r.ok + r.err) / ((10000000000 : Nat) / 1000000000)) ∧
    ((999999999 : Nat) < 1000000000 ∧
      phaseReport ⟨[], 999999999⟩ = none) :=
  ⟨⟨by norm_num,
    (C10_ops_division ⟨[RecOp.success], 10000000000⟩).1 (by norm_num)⟩,
   ⟨by norm_num,
    (C10_ops_division ⟨[], 999999999⟩).2 (by norm_num)⟩⟩
